import Mathlib

/-!
Shallow embedding of the ldtkgo LDtk-project loader (package `ldtkgo`,
file `ldtkgo.go`) and proofs about its load-and-resolve pipeline.

Conventions of the embedding:

* Go `int` values are modelled as `Int` (no claim exercises 64-bit
  wraparound; all quantities involved stay far below 2^63).
* Go `byte` values are modelled as `Nat`; wherever byte arithmetic occurs
  the operands are bounded well below 256, so no wrap can occur (noted at
  the definition).
* Go strings are modelled through their character lists (`String.data`);
  every string the claims exercise is ASCII, where Go's byte indexing and
  the character list coincide.
* JSON floating-point payloads (background-image scale and crop values)
  are copied verbatim by the Go code and never computed with, so they are
  modelled as `Rat`.
* A Go runtime panic (index out of range, integer division by zero) is
  modelled by `Except PanicKind`; `Except.ok` is normal termination.
* `json.Unmarshal` of the document into the typed tree is modelled as an
  abstract fallible decode: `Read` receives either a decode error or the
  parsed document (`RawDocument`), mirroring the
  `if err != nil { return nil, err }` control flow of `Read` in the source.
  `json.Unmarshal` decodes JSON arrays into Go slices in document order,
  and the untagged field `Src []int` of `Tile` is filled from the JSON
  key `src` (Go's case-insensitive field matching), so raw tiles are
  modelled as already-decoded `Tile` values.
* `gjson` raw-document queries (`defs.tilesets`, `levels.N`,
  `layerInstances.N.intGridCsv`, `__bgPos`) are modelled by the
  corresponding fields of `RawDocument`; a `gjson` `Get` on an absent
  path yields a non-existent result whose `Array()` is empty.
-/

/-- Kinds of Go runtime panic the embedded code can raise. -/
inductive PanicKind where
  | divByZero
  | indexOutOfRange
deriving DecidableEq

/-- Result of `color.RGBA` in Go: four byte components. -/
structure RGBA where
  R : Nat
  G : Nat
  B : Nat
  A : Nat
deriving DecidableEq, Inhabited

/-- Value held by a `Property` (Go `interface{}` filled by JSON decoding). -/
inductive PropValue where
  | null
  | num (x : Rat)
  | str (s : String)
  | boolean (b : Bool)
  | arr (xs : List PropValue)
  | obj (fields : List (String × PropValue))

instance : Inhabited PropValue := ⟨PropValue.null⟩

/-- Go struct `Property`: a custom property on an Entity or Level.
The Go field `Type` is called `Type_` here because `Type` is reserved in Lean. -/
structure Property where
  Identifier : String
  Type_ : String
  Value : PropValue
deriving Inhabited

/-- Go struct `Entity`: an entity placed in an LDtk level.
`Pivot` is `[]float32` in Go, modelled as rationals (copied verbatim). -/
structure Entity where
  Identifier : String
  Position : List Int
  Width : Int
  Height : Int
  Properties : List Property
  Pivot : List Rat
deriving Inhabited

/-- Go struct `Integer`: one materialized cell of an IntGrid layer. -/
structure Integer where
  Position : List Int
  Value : Int
  ID : Int
deriving DecidableEq, Inhabited

/-- Go struct `Tile`: a graphical tile (manually placed or auto).
`Flip` is a Go `byte`. -/
structure Tile where
  Position : List Int
  Src : List Int
  Flip : Nat
  ID : Int
deriving DecidableEq, Inhabited

/-- Go struct `Tileset`. The per-tile `CustomData` and `Enums` maps are
omitted from the model: no verified claim touches them. -/
structure Tileset where
  Path : String
  ID : Int
  GridSize : Int
  Spacing : Int
  Padding : Int
  Width : Int
  Height : Int
  Identifier : String
deriving DecidableEq, Inhabited

/-- Go struct `BGImage`: a Level's background image placement. -/
structure BGImage where
  Path : String
  ScaleX : Rat
  ScaleY : Rat
  CropRect : List Rat
deriving DecidableEq, Inhabited

/-- Go struct `Layer`. The Go field `Type` is called `Type_` here
(`Type` is reserved in Lean); the Go pointer field `Tileset *Tileset`
is an `Option` holding the bound tileset value. -/
structure Layer where
  Identifier : String
  GridSize : Int
  OffsetX : Int
  OffsetY : Int
  CellWidth : Int
  CellHeight : Int
  Type_ : String
  Tileset : Option Tileset
  TilesetUID : Int
  IntGrid : List Integer
  AutoTiles : List Tile
  Tiles : List Tile
  Entities : List Entity
  Visible : Bool
deriving Inhabited

/-- Go struct `Level`. `BGColor` is the parsed `color.Color` value. -/
structure Level where
  BGImage : Option BGImage
  WorldX : Int
  WorldY : Int
  Width : Int
  Height : Int
  Identifier : String
  BGColorString : String
  BGColor : RGBA
  Layers : List Layer
  Properties : List Property
deriving Inhabited

/-- Go struct `Project`. -/
structure Project where
  WorldLayout : String
  WorldGridWidth : Int
  WorldGridHeight : Int
  BGColorString : String
  BGColor : RGBA
  JSONVersion : String
  Levels : List Level
  Tilesets : List Tileset
  IntGridNames : List String
deriving Inhabited

/-! ## Hex-color parsing (`parseHexColorFast`) -/

/-- The `hexToByte` closure inside `parseHexColorFast`: value of a hex
digit, together with a flag that is `false` exactly when the closure set
`err = errInvalidFormat`. -/
def hexToByte (b : Char) : Nat × Bool :=
  if '0' ≤ b ∧ b ≤ '9' then (b.toNat - '0'.toNat, true)
  else if 'a' ≤ b ∧ b ≤ 'f' then (b.toNat - 'a'.toNat + 10, true)
  else if 'A' ≤ b ∧ b ≤ 'F' then (b.toNat - 'A'.toNat + 10, true)
  else (0, false)

/-- Body of `parseHexColorFast` over the character list of the input.
Returns `none` when the Go code panics (`s[0]` on the empty string is an
index-out-of-range panic), otherwise `some (c, errFlagged)` where
`errFlagged` is `true` exactly when the Go function returns a non-nil
`err`.  `c.A = 0xff` is set before any check, so every non-panicking
return carries alpha 255.  All byte arithmetic (`<<4 +` and `*17`) stays
below 256 because `hexToByte` yields at most 15, so Go's byte wrap never
occurs. -/
def parseHexColorFastAux (s : List Char) : Option (RGBA × Bool) :=
  match s with
  | [] => none
  | c0 :: rest =>
    if c0 = '#' then
      match rest with
      | [a1, a2, a3, a4, a5, a6] =>
        some ({ R := (hexToByte a1).1 * 16 + (hexToByte a2).1,
                G := (hexToByte a3).1 * 16 + (hexToByte a4).1,
                B := (hexToByte a5).1 * 16 + (hexToByte a6).1,
                A := 255 },
              !((hexToByte a1).2 && (hexToByte a2).2 && (hexToByte a3).2 &&
                (hexToByte a4).2 && (hexToByte a5).2 && (hexToByte a6).2))
      | [a1, a2, a3] =>
        some ({ R := (hexToByte a1).1 * 17,
                G := (hexToByte a2).1 * 17,
                B := (hexToByte a3).1 * 17,
                A := 255 },
              !((hexToByte a1).2 && (hexToByte a2).2 && (hexToByte a3).2))
      | _ => some ({ R := 0, G := 0, B := 0, A := 255 }, true)
    else some ({ R := 0, G := 0, B := 0, A := 255 }, true)

/-- Go function `parseHexColorFast` on a string input. -/
def parseHexColorFast (s : String) : Option (RGBA × Bool) :=
  parseHexColorFastAux s.data

/-! ## Query facade -/

/-- Shape of every identifier lookup loop in the source: linear scan,
return the first element satisfying the predicate, `nil` when none does. -/
def findFirst {α : Type} (p : α → Bool) : List α → Option α
  | [] => none
  | x :: rest => if p x then some x else findFirst p rest

/-- Go method `Entity.PropertyByIdentifier`. -/
def Entity.PropertyByIdentifier (entity : Entity) (id : String) : Option Property :=
  findFirst (fun p => p.Identifier == id) entity.Properties

/-- Go method `Layer.EntityByIdentifier`. -/
def Layer.EntityByIdentifier (layer : Layer) (identifier : String) : Option Entity :=
  findFirst (fun e => e.Identifier == identifier) layer.Entities

/-- Go method `Level.LayerByIdentifier`. -/
def Level.LayerByIdentifier (level : Level) (identifier : String) : Option Layer :=
  findFirst (fun l => l.Identifier == identifier) level.Layers

/-- Go method `Level.PropertyByIdentifier`. -/
def Level.PropertyByIdentifier (level : Level) (id : String) : Option Property :=
  findFirst (fun p => p.Identifier == id) level.Properties

/-- Go method `Project.LevelByIdentifier`. -/
def Project.LevelByIdentifier (project : Project) (identifier : String) : Option Level :=
  findFirst (fun l => l.Identifier == identifier) project.Levels

/-- Go method `Project.TilesetByIdentifier`. -/
def Project.TilesetByIdentifier (project : Project) (identifier : String) : Option Tileset :=
  findFirst (fun t => t.Identifier == identifier) project.Tilesets

/-- Loop body of `Project.IntGridConstantByName`: Go's
`for i, name := range ...` with running index `i`, returning `-1` after
the loop. -/
def intGridConstantAux (constantName : String) (i : Nat) : List String → Int
  | [] => -1
  | name :: rest =>
    if name == constantName then Int.ofNat i
    else intGridConstantAux constantName (i + 1) rest

/-- Go method `Project.IntGridConstantByName`. -/
def Project.IntGridConstantByName (project : Project) (constantName : String) : Int :=
  intGridConstantAux constantName 0 project.IntGridNames

/-- Go slice indexing `xs[i]`: panics with index out of range when the
index is not in bounds. -/
def goIndex {α : Type} (xs : List α) (i : Nat) : Except PanicKind α :=
  match xs[i]? with
  | some v => Except.ok v
  | none => Except.error PanicKind.indexOutOfRange

/-- Go method `Layer.ToGridPosition`: world position to grid position.
Go's `/` on `int` truncates toward zero (`Int.tdiv`) and panics when
`GridSize` is zero. -/
def Layer.ToGridPosition (layer : Layer) (x y : Int) : Except PanicKind (Int × Int) :=
  if layer.GridSize = 0 then Except.error PanicKind.divByZero
  else Except.ok (Int.tdiv x layer.GridSize, Int.tdiv y layer.GridSize)

/-- Go method `Layer.FromGridPosition`: grid position to world position. -/
def Layer.FromGridPosition (layer : Layer) (x y : Int) : Int × Int :=
  (x * layer.GridSize, y * layer.GridSize)

/-- Loop of `Layer.TileAt` / `Layer.AutoTileAt` over a tile list: for each
tile, index `Position[0]` and `Position[1]`, convert to grid coordinates,
compare against the query. -/
def tileAtAux (layer : Layer) (x y : Int) : List Tile → Except PanicKind (Option Tile)
  | [] => Except.ok none
  | tile :: rest => do
    let px ← goIndex tile.Position 0
    let py ← goIndex tile.Position 1
    let c ← layer.ToGridPosition px py
    if c.1 = x ∧ c.2 = y then Except.ok (some tile)
    else tileAtAux layer x y rest

/-- Go method `Layer.TileAt`. -/
def Layer.TileAt (layer : Layer) (x y : Int) : Except PanicKind (Option Tile) :=
  tileAtAux layer x y layer.Tiles

/-- Go method `Layer.AutoTileAt`. -/
def Layer.AutoTileAt (layer : Layer) (x y : Int) : Except PanicKind (Option Tile) :=
  tileAtAux layer x y layer.AutoTiles

/-- Loop of `Layer.IntegerAt` over the IntGrid list. -/
def integerAtAux (layer : Layer) (x y : Int) : List Integer → Except PanicKind (Option Integer)
  | [] => Except.ok none
  | integer :: rest => do
    let px ← goIndex integer.Position 0
    let py ← goIndex integer.Position 1
    let c ← layer.ToGridPosition px py
    if c.1 = x ∧ c.2 = y then Except.ok (some integer)
    else integerAtAux layer x y rest

/-- Go method `Layer.IntegerAt`. -/
def Layer.IntegerAt (layer : Layer) (x y : Int) : Except PanicKind (Option Integer) :=
  integerAtAux layer x y layer.IntGrid

/-! ## Raw document model (input to `Read` after JSON parsing) -/

/-- Raw background-position block (`__bgPos`), as read through `gjson`:
the `scale` and `cropRect` arrays of the block. -/
structure RawBgPos where
  scale : List Rat
  cropRect : List Rat
deriving DecidableEq, Inhabited

/-- One element of `layerInstances` in the document, carrying both the
structurally decoded layer fields and the `intGridCsv` array that `Read`
fetches through `gjson`. -/
structure RawLayer where
  identifier : String
  gridSize : Int
  pxTotalOffsetX : Int
  pxTotalOffsetY : Int
  cWid : Int
  cHei : Int
  type : String
  tilesetDefUid : Int
  autoLayerTiles : List Tile
  gridTiles : List Tile
  entityInstances : List Entity
  visible : Bool
  intGridCsv : List Int
deriving Inhabited

/-- One element of `levels` in the document. `bgRelPath := none` models a
document without that key; `bgPos := none` models an absent `__bgPos`
block. -/
structure RawLevel where
  identifier : String
  worldX : Int
  worldY : Int
  pxWid : Int
  pxHei : Int
  bgColor : String
  fieldInstances : List Property
  layerInstances : List RawLayer
  bgRelPath : Option String
  bgPos : Option RawBgPos
deriving Inhabited

/-- One element of `defs.tilesets` in the document (the fields the decode
uses; `enumTags` and `customData` are omitted, as are the maps they fill). -/
structure RawTilesetDef where
  relPath : String
  uid : Int
  tileGridSize : Int
  spacing : Int
  padding : Int
  pxWid : Int
  pxHei : Int
  identifier : String
deriving DecidableEq, Inhabited

/-- One element of `intGridValues` in a layer definition. -/
structure RawIntGridValue where
  identifier : String
deriving DecidableEq, Inhabited

/-- One element of `defs.layers` in the document. -/
structure RawLayerDef where
  type : String
  intGridValues : List RawIntGridValue
deriving DecidableEq, Inhabited

/-- The whole parsed document, as visible to `Read` (typed decode plus the
`gjson` raw queries). -/
structure RawDocument where
  worldLayout : String
  worldGridWidth : Int
  worldGridHeight : Int
  defaultLevelBgColor : String
  jsonVersion : String
  levels : List RawLevel
  tilesetDefs : List RawTilesetDef
  layerDefs : List RawLayerDef
deriving Inhabited

/-- An error produced by `json.Unmarshal` (opaque to `Read`). -/
structure DecodeError where
  message : String
deriving DecidableEq, Inhabited

/-! ## The load-and-resolve pipeline (`Read`) -/

/-- Structural decode of one tileset definition (`json.Unmarshal` of the
raw `defs.tilesets` element).  `filepath.FromSlash` only swaps path
separators on non-slash platforms and is modelled as the identity. -/
def decodeTileset (raw : RawTilesetDef) : Tileset :=
  { Path := raw.relPath
    ID := raw.uid
    GridSize := raw.tileGridSize
    Spacing := raw.spacing
    Padding := raw.padding
    Width := raw.pxWid
    Height := raw.pxHei
    Identifier := raw.identifier }

/-- Structural decode of one layer instance (`json.Unmarshal`): the
`json:"-"` fields `Tileset` and `IntGrid` stay at their zero values. -/
def decodeLayer (raw : RawLayer) : Layer :=
  { Identifier := raw.identifier
    GridSize := raw.gridSize
    OffsetX := raw.pxTotalOffsetX
    OffsetY := raw.pxTotalOffsetY
    CellWidth := raw.cWid
    CellHeight := raw.cHei
    Type_ := raw.type
    Tileset := none
    TilesetUID := raw.tilesetDefUid
    IntGrid := []
    AutoTiles := raw.autoLayerTiles
    Tiles := raw.gridTiles
    Entities := raw.entityInstances
    Visible := raw.visible }

/-- The IntGrid materialization loop of `Read`: iterate the flat
`intGridCsv` array with running index `i`; skip zero values; for a
nonzero value compute `y := int(float64(i) / float64(cellWidth))` and
`x := i - y*cellWidth`, store pixel position `(x*gridSize, y*gridSize)`
and append.  The `float64` division truncated back to `int` agrees with
truncating integer division (`Int.tdiv`) for every index that can occur
in a decodable document (far below 2^52), which is how it is modelled. -/
def materializeIntGridAux (cellWidth gridSize : Int) (i : Nat) : List Int → List Integer
  | [] => []
  | v :: rest =>
    if v ≠ 0 then
      { Position :=
          [(Int.ofNat i - Int.tdiv (Int.ofNat i) cellWidth * cellWidth) * gridSize,
           Int.tdiv (Int.ofNat i) cellWidth * gridSize],
        Value := v,
        ID := Int.ofNat i } :: materializeIntGridAux cellWidth gridSize (i + 1) rest
    else materializeIntGridAux cellWidth gridSize (i + 1) rest

/-- IntGrid materialization for one layer, starting at flat index 0. -/
def materializeIntGrid (cellWidth gridSize : Int) (csv : List Int) : List Integer :=
  materializeIntGridAux cellWidth gridSize 0 csv

/-- Per-layer resolution step of `Read`: the layer as decoded, with the
IntGrid cells materialized from `intGridCsv` and the tileset reference
bound to the first project tileset whose `ID` equals the layer's
`TilesetUID` (the Go loop with `break`; no match leaves it `nil`). -/
def resolveLayer (tilesets : List Tileset) (raw : RawLayer) : Layer :=
  let layer := decodeLayer raw
  { layer with
      IntGrid := materializeIntGrid layer.CellWidth layer.GridSize raw.intGridCsv
      Tileset := findFirst (fun tileset => tileset.ID == layer.TilesetUID) tilesets }

/-- Background-color step shared by `Read` for the project and each
level: parse the hex string when non-empty (the parse error is discarded
with `_`), otherwise use the zero value `color.RGBA{}`.  A panic inside
`parseHexColorFast` would propagate, but the call is guarded by the
non-empty check so the empty-string panic is unreachable here. -/
def resolveBGColor (s : String) : Except PanicKind RGBA :=
  if s ≠ "" then
    match parseHexColorFast s with
    | some (c, _) => Except.ok c
    | none => Except.error PanicKind.indexOutOfRange
  else Except.ok { R := 0, G := 0, B := 0, A := 0 }

/-- Background-image step of `Read` for one level: when `bgRelPath`
exists and is non-empty, fetch `__bgPos`, then index `scale[0]`,
`scale[1]` and `cropRect[0..3]`.  A `gjson` `Get` on an absent `__bgPos`
yields arrays that are empty, so the first index panics. -/
def resolveBGImage (raw : RawLevel) : Except PanicKind (Option BGImage) :=
  match raw.bgRelPath with
  | none => Except.ok none
  | some path =>
    if path = "" then Except.ok none
    else
      let scale := match raw.bgPos with
        | some bgPos => bgPos.scale
        | none => []
      let cropRect := match raw.bgPos with
        | some bgPos => bgPos.cropRect
        | none => []
      do
        let s0 ← goIndex scale 0
        let s1 ← goIndex scale 1
        let c0 ← goIndex cropRect 0
        let c1 ← goIndex cropRect 1
        let c2 ← goIndex cropRect 2
        let c3 ← goIndex cropRect 3
        Except.ok (some { Path := path, ScaleX := s0, ScaleY := s1,
                          CropRect := [c0, c1, c2, c3] })

/-- Per-level work of `Read`: decode the level (layer list in document
order), parse its background color, attach the background image, resolve
every layer. -/
def resolveLevel (tilesets : List Tileset) (raw : RawLevel) : Except PanicKind Level :=
  match resolveBGColor raw.bgColor with
  | Except.error e => Except.error e
  | Except.ok bgColor =>
  match resolveBGImage raw with
  | Except.error e => Except.error e
  | Except.ok bgImage =>
  Except.ok
    { BGImage := bgImage
      WorldX := raw.worldX
      WorldY := raw.worldY
      Width := raw.pxWid
      Height := raw.pxHei
      Identifier := raw.identifier
      BGColorString := raw.bgColor
      BGColor := bgColor
      Layers := raw.layerInstances.map (resolveLayer tilesets)
      Properties := raw.fieldInstances }

/-- The `for index, level := range project.Levels` loop of `Read`. -/
def resolveLevels (tilesets : List Tileset) : List RawLevel → Except PanicKind (List Level)
  | [] => Except.ok []
  | raw :: rest =>
    match resolveLevel tilesets raw with
    | Except.error e => Except.error e
    | Except.ok lvl =>
    match resolveLevels tilesets rest with
    | Except.error e => Except.error e
    | Except.ok more => Except.ok (lvl :: more)

/-- The `defs.layers` scan of `Read` that builds `IntGridNames`: for each
layer definition of type `IntGrid`, append the identifiers of its
`intGridValues` in order. -/
def collectIntGridNames : List RawLayerDef → List String
  | [] => []
  | d :: rest =>
    (if d.type == "IntGrid" then d.intGridValues.map (fun v => v.identifier) else [])
      ++ collectIntGridNames rest

/-- Everything `Read` does after a successful structural decode. -/
def resolveProject (raw : RawDocument) : Except PanicKind Project :=
  match resolveBGColor raw.defaultLevelBgColor with
  | Except.error e => Except.error e
  | Except.ok bgColor =>
  match resolveLevels (raw.tilesetDefs.map decodeTileset) raw.levels with
  | Except.error e => Except.error e
  | Except.ok levels =>
  Except.ok
    { WorldLayout := raw.worldLayout
      WorldGridWidth := raw.worldGridWidth
      WorldGridHeight := raw.worldGridHeight
      BGColorString := raw.defaultLevelBgColor
      BGColor := bgColor
      JSONVersion := raw.jsonVersion
      Levels := levels
      Tilesets := raw.tilesetDefs.map decodeTileset
      IntGridNames := collectIntGridNames raw.layerDefs }

/-- Go function `Read`: on a decode error return `(nil, err)` at once;
otherwise resolve the document.  The pair mirrors Go's
`(*Project, error)` return; the outer `Except` carries a panic. -/
def Read (input : Except DecodeError RawDocument) :
    Except PanicKind (Option Project × Option DecodeError) :=
  match input with
  | Except.error e => Except.ok (none, some e)
  | Except.ok raw =>
    match resolveProject raw with
    | Except.error e => Except.error e
    | Except.ok project => Except.ok (some project, none)

/-- Modelled from the spec: the tile source-rectangle computation that the
spec attributes to the resolver (`tilesPerRow = floor((pxWidth + spacing) /
(gridSize + spacing))`, `col = id mod tilesPerRow`, `row = id div
tilesPerRow`, rectangle at `(padding + col*(gridSize+spacing), padding +
row*(gridSize+spacing))` with width = height = gridSize).  No function in
the repository source performs this computation; this definition exists to
compare the spec's formula with what `Read` actually produces. -/
def specTileSrcRect (gridSize spacing padding pxWidth id : Nat) : Nat × Nat × Nat × Nat :=
  let tilesPerRow := (pxWidth + spacing) / (gridSize + spacing)
  (padding + (id % tilesPerRow) * (gridSize + spacing),
   padding + (id / tilesPerRow) * (gridSize + spacing),
   gridSize, gridSize)

/-! ## Statement helpers and concrete inputs for the claims -/

/-- Well-formedness of the position arrays a layer carries: every tile,
auto-tile and IntGrid cell has at least the two coordinates that the
position-query loops index (`Position[0]`, `Position[1]`); every `px`
array in a decodable LDtk document has exactly two. -/
def positionsWF (layer : Layer) : Prop :=
  (∀ t ∈ layer.Tiles, 2 ≤ t.Position.length)
  ∧ (∀ t ∈ layer.AutoTiles, 2 ≤ t.Position.length)
  ∧ (∀ i ∈ layer.IntGrid, 2 ≤ i.Position.length)

/-- Composition queried by the round-trip claim: `ToGridPosition`
followed by `FromGridPosition` on the same layer. -/
def gridRoundTrip (layer : Layer) (x y : Int) : Except PanicKind (Int × Int) :=
  match layer.ToGridPosition x y with
  | Except.error e => Except.error e
  | Except.ok c => Except.ok (layer.FromGridPosition c.1 c.2)

/-- A layer with 16-pixel grid cells and no content, for the coordinate
claims. -/
def c4layer : Layer :=
  { Identifier := "Ground", GridSize := 16, OffsetX := 0, OffsetY := 0,
    CellWidth := 8, CellHeight := 8, Type_ := "Tiles", Tileset := none,
    TilesetUID := 0, IntGrid := [], AutoTiles := [], Tiles := [],
    Entities := [], Visible := true }

/-- A layer with `GridSize = 0` and one tile, exercising the unguarded
division of the position queries. -/
def c10layer : Layer :=
  { Identifier := "Broken", GridSize := 0, OffsetX := 0, OffsetY := 0,
    CellWidth := 2, CellHeight := 2, Type_ := "Tiles", Tileset := none,
    TilesetUID := 0, IntGrid := [],
    AutoTiles := [],
    Tiles := [{ Position := [16, 0], Src := [0, 0], Flip := 0, ID := 1 }],
    Entities := [], Visible := true }

/-- A one-tileset list whose only entry has ID 3, for the binding claim. -/
def c7tilesets : List Tileset :=
  [{ Path := "a.png", ID := 3, GridSize := 16, Spacing := 0, Padding := 0,
     Width := 64, Height := 64, Identifier := "TSA" }]

/-- A raw layer declaring tileset UID 99, which no tileset carries. -/
def c7raw : RawLayer :=
  { identifier := "Tiles0", gridSize := 16, pxTotalOffsetX := 0, pxTotalOffsetY := 0,
    cWid := 4, cHei := 4, type := "Tiles", tilesetDefUid := 99,
    autoLayerTiles := [], gridTiles := [], entityInstances := [], visible := true,
    intGridCsv := [] }

/-- A raw layer with a small IntGrid csv, for the materialization witness. -/
def c5raw : RawLayer :=
  { identifier := "IntGrid0", gridSize := 16, pxTotalOffsetX := 0, pxTotalOffsetY := 0,
    cWid := 2, cHei := 2, type := "IntGrid", tilesetDefUid := 0,
    autoLayerTiles := [], gridTiles := [], entityInstances := [], visible := true,
    intGridCsv := [0, 5, 0, 7] }

/-- A raw level that declares a background image path but whose document
has no `__bgPos` block. -/
def c6rawLevelNoPos : RawLevel :=
  { identifier := "L1", worldX := 0, worldY := 0, pxWid := 64, pxHei := 64,
    bgColor := "", fieldInstances := [], layerInstances := [],
    bgRelPath := some "bg.png", bgPos := none }

/-- A raw level with a complete background block. -/
def c6rawLevel : RawLevel :=
  { identifier := "L2", worldX := 0, worldY := 0, pxWid := 64, pxHei := 64,
    bgColor := "", fieldInstances := [], layerInstances := [],
    bgRelPath := some "bg.png",
    bgPos := some { scale := [1, 2], cropRect := [0, 0, 3, 4] } }

/-- A document whose single level declares `bgRelPath` without `__bgPos`. -/
def c6doc : RawDocument :=
  { worldLayout := "Free", worldGridWidth := 256, worldGridHeight := 256,
    defaultLevelBgColor := "", jsonVersion := "0.9.3",
    levels := [c6rawLevelNoPos], tilesetDefs := [], layerDefs := [] }

/-- A document with one level holding two layers named "A" (first in the
document, topmost in LDtk) and "B" (last in the document). -/
def c2doc : RawDocument :=
  { worldLayout := "Free", worldGridWidth := 256, worldGridHeight := 256,
    defaultLevelBgColor := "", jsonVersion := "0.9.3",
    levels :=
      [{ identifier := "Level0", worldX := 0, worldY := 0, pxWid := 64, pxHei := 64,
         bgColor := "", fieldInstances := [],
         layerInstances :=
           [{ identifier := "A", gridSize := 16, pxTotalOffsetX := 0,
              pxTotalOffsetY := 0, cWid := 4, cHei := 4, type := "Tiles",
              tilesetDefUid := 0, autoLayerTiles := [], gridTiles := [],
              entityInstances := [], visible := true, intGridCsv := [] },
            { identifier := "B", gridSize := 16, pxTotalOffsetX := 0,
              pxTotalOffsetY := 0, cWid := 4, cHei := 4, type := "Tiles",
              tilesetDefUid := 0, autoLayerTiles := [], gridTiles := [],
              entityInstances := [], visible := true, intGridCsv := [] }],
         bgRelPath := none, bgPos := none }],
    tilesetDefs := [], layerDefs := [] }

/-- A document with a 256x32 tileset (8 tiles per row) and one tile of ID
10 whose document `src` field is `[0, 0]`. -/
def c1doc : RawDocument :=
  { worldLayout := "Free", worldGridWidth := 256, worldGridHeight := 256,
    defaultLevelBgColor := "", jsonVersion := "0.9.3",
    levels :=
      [{ identifier := "Level0", worldX := 0, worldY := 0, pxWid := 64, pxHei := 64,
         bgColor := "", fieldInstances := [],
         layerInstances :=
           [{ identifier := "Tiles0", gridSize := 32, pxTotalOffsetX := 0,
              pxTotalOffsetY := 0, cWid := 2, cHei := 2, type := "Tiles",
              tilesetDefUid := 1, autoLayerTiles := [],
              gridTiles := [{ Position := [0, 0], Src := [0, 0], Flip := 0, ID := 10 }],
              entityInstances := [], visible := true, intGridCsv := [] }],
         bgRelPath := none, bgPos := none }],
    tilesetDefs :=
      [{ relPath := "tiles.png", uid := 1, tileGridSize := 32, spacing := 0,
         padding := 0, pxWid := 256, pxHei := 256, identifier := "TS" }],
    layerDefs := [] }

/-- Extracts the `Src` of the first tile of the first layer of the first
level out of a `Read` result. -/
def firstTileSrcOfRead (r : Except PanicKind (Option Project × Option DecodeError)) :
    Option (List Int) :=
  match r with
  | Except.ok (some p, _) =>
    match p.Levels with
    | lvl :: _ =>
      match lvl.Layers with
      | ly :: _ =>
        match ly.Tiles with
        | t :: _ => some t.Src
        | [] => none
      | [] => none
    | [] => none
  | _ => none

/-- Extracts the per-level lists of layer identifiers out of a `Read`
result. -/
def layerIdentsOfRead (r : Except PanicKind (Option Project × Option DecodeError)) :
    Option (List (List String)) :=
  match r with
  | Except.ok (some p, _) => some (p.Levels.map fun lvl => lvl.Layers.map fun ly => ly.Identifier)
  | _ => none

/-- The project `Read` produces for `c1doc`. -/
def c1project : Project :=
  match Read (Except.ok c1doc) with
  | Except.ok (some p, _) => p
  | _ => default

/-- The project `Read` produces for `c2doc`. -/
def c2project : Project :=
  match Read (Except.ok c2doc) with
  | Except.ok (some p, _) => p
  | _ => default

/-! ## Generic helper lemmas -/

/-- Bind on `Except` applied to a success. -/
theorem except_ok_bind {ε α β : Type} (a : α) (f : α → Except ε β) :
    (Except.ok a : Except ε α) >>= f = f a := rfl

/-- Bind on `Except` applied to an error. -/
theorem except_error_bind {ε α β : Type} (e : ε) (f : α → Except ε β) :
    (Except.error e : Except ε α) >>= f = Except.error e := rfl

/-- The linear-scan loop shape equals the library first-match search. -/
theorem findFirst_eq_find? {α : Type} (p : α → Bool) (l : List α) :
    findFirst p l = List.find? p l := by
  induction l with
  | nil => rfl
  | cons x rest ih =>
    cases hx : p x <;> simp [findFirst, List.find?_cons, hx, ih]

/-- The indexed scan of `IntGridConstantByName` returns the first index at
which the name occurs (shifted by the running index), and `-1` otherwise. -/
theorem intGridConstantAux_eq (constantName : String) (i : Nat) (l : List String) :
    intGridConstantAux constantName i l =
      (match List.findIdx? (fun n => n == constantName) l i with
       | some j => Int.ofNat j
       | none => -1) := by
  induction l generalizing i with
  | nil => rfl
  | cons n rest ih =>
    cases hn : (n == constantName) <;>
      simp [intGridConstantAux, List.findIdx?_cons, hn, ih]

/-- A list of length at least two starts with two explicit elements. -/
theorem list_two_le {α : Type} (l : List α) (h : 2 ≤ l.length) :
    ∃ a b tl, l = a :: b :: tl := by
  rcases l with _ | ⟨a, _ | ⟨b, tl⟩⟩
  · simp at h
  · simp at h
  · exact ⟨a, b, tl, rfl⟩

/-! ## Claim C9 -/

/-- Claim C9: on any byte input whose JSON structural decode fails, `Read`
returns a nil Project together with the error: the load aborts atomically
and no partial Project reaches the caller.  The structural decode is
modelled as an abstract fallible step feeding `Read`, faithful to the
`if err != nil { return nil, err }` control flow of the source. -/
theorem read_decode_error_atomic (e : DecodeError) :
    Read (Except.error e) = Except.ok (none, some e) := rfl

/-! ## Claim C3 -/

/-- Claim C3, counterexample: the claim predicts that a failing parse
returns transparent black, and that every failing input string merely
flags an error.  On the input "abc" the code returns opaque black
(alpha 255, preset before any check) rather than transparent black, and
on the empty string it panics (`s[0]` out of range) instead of
returning at all. -/
theorem hex_color_counterexample :
    parseHexColorFast "abc" = some ({ R := 0, G := 0, B := 0, A := 255 }, true)
    ∧ ({ R := 0, G := 0, B := 0, A := 255 } : RGBA) ≠ { R := 0, G := 0, B := 0, A := 0 }
    ∧ parseHexColorFast "" = none := by
  refine ⟨by decide, by decide, rfl⟩

/-- Claim C3, amended: "#FFFFFF" parses to opaque white, "#000" to opaque
black, "#F00" to (255,0,0,255); every non-empty string not starting with
the hash sign, and every hash-prefixed string of length other than 4 and
7, flags a parse error and returns opaque black `(0,0,0,255)` (the zero
color with alpha preset to 255) — not transparent black — without
aborting the load; the empty string makes the parser panic instead of
returning. -/
theorem hex_color_spec :
    parseHexColorFast "#FFFFFF" = some ({ R := 255, G := 255, B := 255, A := 255 }, false)
    ∧ parseHexColorFast "#000" = some ({ R := 0, G := 0, B := 0, A := 255 }, false)
    ∧ parseHexColorFast "#F00" = some ({ R := 255, G := 0, B := 0, A := 255 }, false)
    ∧ (∀ s : String, s ≠ "" → s.data.head? ≠ some '#' →
        parseHexColorFast s = some ({ R := 0, G := 0, B := 0, A := 255 }, true))
    ∧ (∀ s : String, s.data.head? = some '#' → s.length ≠ 4 → s.length ≠ 7 →
        parseHexColorFast s = some ({ R := 0, G := 0, B := 0, A := 255 }, true))
    ∧ parseHexColorFast "" = none := by
  refine ⟨by decide, by decide, by decide, ?_, ?_, rfl⟩
  · intro s hne hhead
    obtain ⟨c0, rest, hdata⟩ : ∃ c0 rest, s.data = c0 :: rest := by
      cases hsd : s.data with
      | nil =>
        exfalso
        apply hne
        apply String.ext
        rw [hsd]
      | cons c0 rest => exact ⟨c0, rest, rfl⟩
    have hc0 : c0 ≠ '#' := by
      intro heq
      apply hhead
      rw [hdata, heq]
      rfl
    rw [parseHexColorFast, hdata]
    simp [parseHexColorFastAux, hc0]
  · intro s hhead h4 h7
    obtain ⟨rest, hdata⟩ : ∃ rest, s.data = '#' :: rest := by
      cases hsd : s.data with
      | nil => rw [hsd] at hhead; simp at hhead
      | cons c0 r =>
        rw [hsd] at hhead
        simp at hhead
        exact ⟨r, by rw [hhead]⟩
    have hlen : s.length = s.data.length := rfl
    rw [hdata] at hlen
    rw [parseHexColorFast, hdata]
    rcases rest with _ | ⟨a1, _ | ⟨a2, _ | ⟨a3, _ | ⟨a4, _ | ⟨a5, _ | ⟨a6, _ | ⟨a7, tl⟩⟩⟩⟩⟩⟩⟩
    · rfl
    · rfl
    · rfl
    · exfalso; apply h4; rw [hlen]; rfl
    · rfl
    · rfl
    · exfalso; apply h7; rw [hlen]; rfl
    · rfl

/-- Claim C3, witness: the amended failure clause applied to "xyz". -/
theorem hex_color_spec_witness :
    parseHexColorFast "xyz" = some ({ R := 0, G := 0, B := 0, A := 255 }, true) :=
  hex_color_spec.2.2.2.1 "xyz" (by decide) (by decide)

/-! ## Claim C4 -/

/-- Claim C4, counterexample: the claim predicts that the round trip
yields the floor-snap `(floor(x/g)*g, floor(y/g)*g)` for ALL integer
coordinates.  Go's integer division truncates toward zero, so on the
16-pixel layer at `x = -5` the round trip yields 0 while the floor-snap
is -16. -/
theorem grid_roundtrip_counterexample :
    gridRoundTrip c4layer (-5) 0 = Except.ok (0, 0)
    ∧ (Int.fdiv (-5) 16 * 16, Int.fdiv 0 16 * 16) = ((-16 : Int), 0)
    ∧ ((0 : Int), (0 : Int)) ≠ ((-16 : Int), (0 : Int)) := by
  refine ⟨rfl, by decide, by decide⟩

/-- Claim C4, amended: for every layer with positive grid size `g` and
all integer world coordinates, `FromGridPosition` after `ToGridPosition`
yields `(trunc(x/g)*g, trunc(y/g)*g)` — truncation toward zero — which
coincides with the claimed floor-snap `(floor(x/g)*g, floor(y/g)*g)`
whenever the coordinates are nonnegative (and is lossy: not an inverse
for non-multiples of `g`). -/
theorem grid_roundtrip_trunc (layer : Layer) (x y : Int) (hg : 0 < layer.GridSize) :
    gridRoundTrip layer x y
      = Except.ok (Int.tdiv x layer.GridSize * layer.GridSize,
                   Int.tdiv y layer.GridSize * layer.GridSize)
    ∧ (0 ≤ x → 0 ≤ y →
        Int.tdiv x layer.GridSize * layer.GridSize
            = Int.fdiv x layer.GridSize * layer.GridSize
        ∧ Int.tdiv y layer.GridSize * layer.GridSize
            = Int.fdiv y layer.GridSize * layer.GridSize) := by
  constructor
  · simp [gridRoundTrip, Layer.ToGridPosition, Layer.FromGridPosition, hg.ne']
  · intro hx hy
    rw [Int.tdiv_eq_ediv hx hg.le, Int.tdiv_eq_ediv hy hg.le,
        Int.fdiv_eq_ediv x hg.le, Int.fdiv_eq_ediv y hg.le]
    exact ⟨rfl, rfl⟩

/-- Claim C4, witness: the amended statement applied to the concrete
16-pixel layer at the nonnegative coordinates (35, 17). -/
theorem grid_roundtrip_trunc_witness :
    gridRoundTrip c4layer 35 17
      = Except.ok (Int.tdiv 35 16 * 16, Int.tdiv 17 16 * 16)
    ∧ Int.tdiv 35 16 * 16 = Int.fdiv 35 16 * 16
    ∧ Int.tdiv 17 16 * 16 = Int.fdiv 17 16 * 16 := by
  have h := grid_roundtrip_trunc c4layer 35 17 (by decide)
  exact ⟨h.1, (h.2 (by decide) (by decide)).1, (h.2 (by decide) (by decide)).2⟩

/-! ## Claim C7 -/

/-- Claim C7: after resolution a layer's tileset reference is the first
tileset in the project list whose ID equals the layer's declared tileset
UID (`List.find?` is exactly that first-match scan), and when no tileset
matches, the reference is left nil; the binding step is a total function,
so loading cannot crash there. -/
theorem tileset_binding_first_match (tilesets : List Tileset) (raw : RawLayer) :
    (resolveLayer tilesets raw).Tileset
      = List.find? (fun tileset => tileset.ID == raw.tilesetDefUid) tilesets
    ∧ ((∀ tileset ∈ tilesets, tileset.ID ≠ raw.tilesetDefUid) →
        (resolveLayer tilesets raw).Tileset = none) := by
  have hf : (resolveLayer tilesets raw).Tileset
      = findFirst (fun tileset => tileset.ID == raw.tilesetDefUid) tilesets := rfl
  constructor
  · rw [hf, findFirst_eq_find?]
  · intro hnone
    rw [hf, findFirst_eq_find?]
    refine List.find?_eq_none.mpr (fun t ht => ?_)
    simp only [beq_iff_eq]
    exact hnone t ht

/-- Claim C7, witness: binding a layer that declares UID 99 against a
project whose only tileset has ID 3 leaves the reference nil. -/
theorem tileset_binding_first_match_witness :
    (resolveLayer c7tilesets c7raw).Tileset = none :=
  (tileset_binding_first_match c7tilesets c7raw).2 (by decide)

/-! ## Claim C8 -/

/-- Claim C8: every identifier-keyed lookup is the first-match linear scan
over its collection — `List.find?` returns the first element whose
identifier matches and `none` when the identifier is absent — and
`IntGridConstantByName` returns the index of the first occurrence of the
name (`List.findIdx?`) and `-1` when the name is absent.  All seven
lookups are total functions, so no collection state can make them
crash. -/
theorem lookup_by_identifier (project : Project) (level : Level) (layer : Layer)
    (entity : Entity) (id : String) :
    project.LevelByIdentifier id = List.find? (fun l => l.Identifier == id) project.Levels
    ∧ project.TilesetByIdentifier id = List.find? (fun t => t.Identifier == id) project.Tilesets
    ∧ level.LayerByIdentifier id = List.find? (fun l => l.Identifier == id) level.Layers
    ∧ level.PropertyByIdentifier id = List.find? (fun p => p.Identifier == id) level.Properties
    ∧ layer.EntityByIdentifier id = List.find? (fun e => e.Identifier == id) layer.Entities
    ∧ entity.PropertyByIdentifier id = List.find? (fun p => p.Identifier == id) entity.Properties
    ∧ project.IntGridConstantByName id
        = (match List.findIdx? (fun n => n == id) project.IntGridNames with
           | some j => Int.ofNat j
           | none => -1) :=
  ⟨findFirst_eq_find? _ _, findFirst_eq_find? _ _, findFirst_eq_find? _ _,
   findFirst_eq_find? _ _, findFirst_eq_find? _ _, findFirst_eq_find? _ _,
   intGridConstantAux_eq id 0 project.IntGridNames⟩

/-! ## Claim C10 -/

/-- On a zero grid size, the tile-position loop panics with division by
zero at its first (well-formed) element. -/
theorem tileAtAux_error_of_gridzero (layer : Layer) (x y : Int) (l : List Tile)
    (hl : l ≠ []) (hwf : ∀ t ∈ l, 2 ≤ t.Position.length) (hg : layer.GridSize = 0) :
    tileAtAux layer x y l = Except.error PanicKind.divByZero := by
  rcases l with _ | ⟨t, rest⟩
  · exact absurd rfl hl
  · obtain ⟨a, b, tl, hpos⟩ := list_two_le t.Position (hwf t (by simp))
    unfold tileAtAux
    rw [hpos]
    simp [goIndex, Layer.ToGridPosition, hg, except_ok_bind, except_error_bind]

/-- On a nonzero grid size the tile-position loop terminates normally for
every query coordinate, provided the traversed positions are
well-formed. -/
theorem tileAtAux_total (layer : Layer) (x y : Int) (l : List Tile)
    (hg : layer.GridSize ≠ 0) (hwf : ∀ t ∈ l, 2 ≤ t.Position.length) :
    ∃ r, tileAtAux layer x y l = Except.ok r := by
  induction l with
  | nil => exact ⟨none, rfl⟩
  | cons t rest ih =>
    obtain ⟨a, b, tl, hpos⟩ := list_two_le t.Position (hwf t (by simp))
    obtain ⟨r, hr⟩ := ih (fun u hu => hwf u (by simp [hu]))
    by_cases hc : Int.tdiv a layer.GridSize = x ∧ Int.tdiv b layer.GridSize = y
    · refine ⟨some t, ?_⟩
      unfold tileAtAux
      rw [hpos]
      simp [goIndex, Layer.ToGridPosition, hg, except_ok_bind, hc]
    · refine ⟨r, ?_⟩
      unfold tileAtAux
      rw [hpos]
      simp [goIndex, Layer.ToGridPosition, hg, except_ok_bind, hc, hr]

/-- Zero-grid-size panic for the IntGrid loop. -/
theorem integerAtAux_error_of_gridzero (layer : Layer) (x y : Int) (l : List Integer)
    (hl : l ≠ []) (hwf : ∀ i ∈ l, 2 ≤ i.Position.length) (hg : layer.GridSize = 0) :
    integerAtAux layer x y l = Except.error PanicKind.divByZero := by
  rcases l with _ | ⟨t, rest⟩
  · exact absurd rfl hl
  · obtain ⟨a, b, tl, hpos⟩ := list_two_le t.Position (hwf t (by simp))
    unfold integerAtAux
    rw [hpos]
    simp [goIndex, Layer.ToGridPosition, hg, except_ok_bind, except_error_bind]

/-- Normal termination of the IntGrid loop on a nonzero grid size. -/
theorem integerAtAux_total (layer : Layer) (x y : Int) (l : List Integer)
    (hg : layer.GridSize ≠ 0) (hwf : ∀ i ∈ l, 2 ≤ i.Position.length) :
    ∃ r, integerAtAux layer x y l = Except.ok r := by
  induction l with
  | nil => exact ⟨none, rfl⟩
  | cons t rest ih =>
    obtain ⟨a, b, tl, hpos⟩ := list_two_le t.Position (hwf t (by simp))
    obtain ⟨r, hr⟩ := ih (fun u hu => hwf u (by simp [hu]))
    by_cases hc : Int.tdiv a layer.GridSize = x ∧ Int.tdiv b layer.GridSize = y
    · refine ⟨some t, ?_⟩
      unfold integerAtAux
      rw [hpos]
      simp [goIndex, Layer.ToGridPosition, hg, except_ok_bind, hc]
    · refine ⟨r, ?_⟩
      unfold integerAtAux
      rw [hpos]
      simp [goIndex, Layer.ToGridPosition, hg, except_ok_bind, hc, hr]

/-- Claim C10: `ToGridPosition` divides by `GridSize` without a guard, so
on a layer with `GridSize = 0` each of `TileAt`, `AutoTileAt` and
`IntegerAt` panics with a division by zero as soon as its list is
non-empty, while on a positive `GridSize` all three terminate normally
for every integer query coordinate.  The position arrays are assumed
well-formed (two coordinates), as they are for every decoded `px`
array. -/
theorem grid_query_panic_guard (layer : Layer) (x y : Int) (hwf : positionsWF layer) :
    (layer.GridSize = 0 →
      (layer.Tiles ≠ [] → layer.TileAt x y = Except.error PanicKind.divByZero)
      ∧ (layer.AutoTiles ≠ [] → layer.AutoTileAt x y = Except.error PanicKind.divByZero)
      ∧ (layer.IntGrid ≠ [] → layer.IntegerAt x y = Except.error PanicKind.divByZero))
    ∧ (0 < layer.GridSize →
      (∃ r, layer.TileAt x y = Except.ok r)
      ∧ (∃ r, layer.AutoTileAt x y = Except.ok r)
      ∧ (∃ r, layer.IntegerAt x y = Except.ok r)) := by
  obtain ⟨hwt, hwa, hwi⟩ := hwf
  constructor
  · intro hg
    exact ⟨fun hne => tileAtAux_error_of_gridzero layer x y layer.Tiles hne hwt hg,
           fun hne => tileAtAux_error_of_gridzero layer x y layer.AutoTiles hne hwa hg,
           fun hne => integerAtAux_error_of_gridzero layer x y layer.IntGrid hne hwi hg⟩
  · intro hg
    exact ⟨tileAtAux_total layer x y layer.Tiles hg.ne' hwt,
           tileAtAux_total layer x y layer.AutoTiles hg.ne' hwa,
           integerAtAux_total layer x y layer.IntGrid hg.ne' hwi⟩

/-- Claim C10, witness: the zero-grid-size layer with one tile panics on
`TileAt`. -/
theorem grid_query_panic_guard_witness :
    c10layer.TileAt 0 0 = Except.error PanicKind.divByZero :=
  ((grid_query_panic_guard c10layer 0 0 ⟨by decide, by decide, by decide⟩).1 rfl).1 (by decide)

/-! ## Claim C5 -/

/-- The materialization loop, started at flat index `i`, equals the
claim's mod/div formulation over the index-enumerated csv: for positive
cell width, `i - (i trunc-div w) * w` is `i mod w` and truncating
division on the nonnegative index is `i div w`. -/
theorem materializeIntGridAux_eq (w g : Int) (hw : 0 < w) (i : Nat) (csv : List Int) :
    materializeIntGridAux w g i csv
      = ((List.enumFrom i csv).filterMap fun p =>
          if p.2 ≠ 0 then
            some { Position := [Int.ofNat p.1 % w * g, Int.ofNat p.1 / w * g],
                   Value := p.2, ID := Int.ofNat p.1 }
          else none) := by
  induction csv generalizing i with
  | nil => rfl
  | cons v rest ih =>
    have hdiv : Int.tdiv (Int.ofNat i) w = Int.ofNat i / w :=
      Int.tdiv_eq_ediv (Int.ofNat_nonneg i) hw.le
    have hmod : (Int.ofNat i - Int.tdiv (Int.ofNat i) w * w) * g
        = Int.ofNat i % w * g := by
      rw [hdiv, Int.emod_def]
      ring
    rw [List.enumFrom_cons, List.filterMap_cons]
    by_cases hv : v = 0
    · subst hv
      rw [materializeIntGridAux, if_neg (fun h => h rfl)]
      exact ih (i + 1)
    · rw [materializeIntGridAux, if_pos hv]
      rw [show (if (i, v).2 ≠ 0 then
              some { Position := [Int.ofNat (i, v).1 % w * g, Int.ofNat (i, v).1 / w * g],
                     Value := (i, v).2, ID := Int.ofNat (i, v).1 }
            else (none : Option Integer))
          = some { Position := [Int.ofNat i % w * g, Int.ofNat i / w * g],
                   Value := v, ID := Int.ofNat i } from if_pos hv]
      rw [hmod, hdiv, ih (i + 1)]

/-- Claim C5: for every layer with positive cell width `w`, the IntGrid
materialization of `Read` produces exactly one cell per nonzero entry of
the flat `intGridCsv` array (zero entries produce nothing), the cell at
flat index `i` has grid position `(i mod w, i div w)`, its stored pixel
position is that grid position times the layer's grid size, and it
carries its value and flat index; and inside `Read` every resolved
layer's `IntGrid` is this materialization of its own csv with its own
cell width and grid size. -/
theorem intgrid_materialization :
    (∀ (w g : Int), 0 < w → ∀ csv : List Int,
      materializeIntGrid w g csv
        = (csv.enum.filterMap fun p =>
            if p.2 ≠ 0 then
              some { Position := [Int.ofNat p.1 % w * g, Int.ofNat p.1 / w * g],
                     Value := p.2, ID := Int.ofNat p.1 }
            else none))
    ∧ (∀ (tilesets : List Tileset) (raw : RawLayer),
        (resolveLayer tilesets raw).IntGrid
          = materializeIntGrid raw.cWid raw.gridSize raw.intGridCsv) := by
  constructor
  · intro w g hw csv
    exact materializeIntGridAux_eq w g hw 0 csv
  · intro tilesets raw
    rfl

/-- Claim C5, witness: the materialization law applied to the csv
`[0, 5, 0, 7]` with cell width 2 and grid size 16, together with its
concrete value: cells at flat indices 1 and 3 only, at pixel positions
`(16, 0)` and `(16, 16)`. -/
theorem intgrid_materialization_witness :
    materializeIntGrid 2 16 [0, 5, 0, 7]
      = (([0, 5, 0, 7] : List Int).enum.filterMap fun p =>
          if p.2 ≠ 0 then
            some { Position := [Int.ofNat p.1 % 2 * 16, Int.ofNat p.1 / 2 * 16],
                   Value := p.2, ID := Int.ofNat p.1 }
          else none)
    ∧ materializeIntGrid 2 16 [0, 5, 0, 7]
      = [{ Position := [16, 0], Value := 5, ID := 1 },
         { Position := [16, 16], Value := 7, ID := 3 }] :=
  ⟨intgrid_materialization.1 2 16 (by decide) [0, 5, 0, 7], by decide⟩

/-! ## Inversion lemmas for the resolve pipeline -/

/-- A successfully resolved level decodes its layer list in document
order, keeps the raw identifier, and carries exactly the background image
that the background step produced. -/
theorem resolveLevel_ok (tilesets : List Tileset) (raw : RawLevel) (lvl : Level)
    (h : resolveLevel tilesets raw = Except.ok lvl) :
    lvl.Layers = raw.layerInstances.map (resolveLayer tilesets)
    ∧ lvl.Identifier = raw.identifier
    ∧ resolveBGImage raw = Except.ok lvl.BGImage := by
  unfold resolveLevel at h
  cases hc : resolveBGColor raw.bgColor with
  | error e => rw [hc] at h; cases h
  | ok c =>
    rw [hc] at h
    cases hb : resolveBGImage raw with
    | error e => rw [hb] at h; cases h
    | ok bg =>
      rw [hb] at h
      cases h
      exact ⟨rfl, rfl, rfl⟩

/-- A successful level loop pairs raw levels with resolved levels in
order. -/
theorem resolveLevels_ok (tilesets : List Tileset) (raws : List RawLevel)
    (lvls : List Level) (h : resolveLevels tilesets raws = Except.ok lvls) :
    List.Forall₂ (fun raw lvl => resolveLevel tilesets raw = Except.ok lvl) raws lvls := by
  induction raws generalizing lvls with
  | nil =>
    unfold resolveLevels at h
    cases h
    exact List.Forall₂.nil
  | cons raw rest ih =>
    unfold resolveLevels at h
    cases hr : resolveLevel tilesets raw with
    | error e => rw [hr] at h; cases h
    | ok lvl =>
      rw [hr] at h
      cases hm : resolveLevels tilesets rest with
      | error e => rw [hm] at h; cases h
      | ok more =>
        rw [hm] at h
        cases h
        exact List.Forall₂.cons hr (ih more hm)

/-- A successful `Read` means the resolver succeeded on the document. -/
theorem read_ok_resolve (raw : RawDocument) (p : Project)
    (h : Read (Except.ok raw) = Except.ok (some p, none)) :
    resolveProject raw = Except.ok p := by
  simp only [Read] at h
  cases hr : resolveProject raw with
  | error e => rw [hr] at h; cases h
  | ok q => rw [hr] at h; cases h; rfl

/-- A successfully resolved project carries the levels of a successful
level loop and the decoded tileset list. -/
theorem resolveProject_ok (raw : RawDocument) (p : Project)
    (h : resolveProject raw = Except.ok p) :
    resolveLevels (raw.tilesetDefs.map decodeTileset) raw.levels = Except.ok p.Levels
    ∧ p.Tilesets = raw.tilesetDefs.map decodeTileset := by
  unfold resolveProject at h
  cases hc : resolveBGColor raw.defaultLevelBgColor with
  | error e => rw [hc] at h; cases h
  | ok c =>
    rw [hc] at h
    cases hl : resolveLevels (raw.tilesetDefs.map decodeTileset) raw.levels with
    | error e => rw [hl] at h; cases h
    | ok lvls =>
      rw [hl] at h
      cases h
      exact ⟨rfl, rfl⟩

/-- Along a successful level loop, the per-level layer lists are the
in-order images of the raw `layerInstances`. -/
theorem forall₂_level_layers (tilesets : List Tileset) (raws : List RawLevel)
    (lvls : List Level)
    (hf : List.Forall₂ (fun raw lvl => resolveLevel tilesets raw = Except.ok lvl) raws lvls) :
    lvls.map (fun lvl => lvl.Layers)
      = raws.map (fun rl => rl.layerInstances.map (resolveLayer tilesets)) := by
  induction hf with
  | nil => rfl
  | cons h1 h2 ih =>
    simp only [List.map_cons, List.cons.injEq]
    exact ⟨(resolveLevel_ok _ _ _ h1).1, ih⟩

/-- After a successful `Read`, each level's layer list is the in-order
image of its raw `layerInstances` under per-layer resolution. -/
theorem read_ok_layers (raw : RawDocument) (p : Project)
    (h : Read (Except.ok raw) = Except.ok (some p, none)) :
    p.Levels.map (fun lvl => lvl.Layers)
      = raw.levels.map (fun rl =>
          rl.layerInstances.map (resolveLayer (raw.tilesetDefs.map decodeTileset))) := by
  obtain ⟨hl, _⟩ := resolveProject_ok raw p (read_ok_resolve raw p h)
  exact forall₂_level_layers _ _ _ (resolveLevels_ok _ _ _ hl)

/-- Along a successful level loop, the per-level lists of layer
identifiers equal the raw identifier lists, in document order. -/
theorem forall₂_level_layer_idents (tilesets : List Tileset) (raws : List RawLevel)
    (lvls : List Level)
    (hf : List.Forall₂ (fun raw lvl => resolveLevel tilesets raw = Except.ok lvl) raws lvls) :
    lvls.map (fun lvl => lvl.Layers.map fun ly => ly.Identifier)
      = raws.map (fun rl => rl.layerInstances.map fun l => l.identifier) := by
  induction hf with
  | nil => rfl
  | cons h1 h2 ih =>
    simp only [List.map_cons, List.cons.injEq]
    refine ⟨?_, ih⟩
    rw [(resolveLevel_ok _ _ _ h1).1, List.map_map]
    rfl

/-- Along a successful level loop, the per-layer tile and auto-tile lists
pass through from the raw document unchanged. -/
theorem forall₂_level_layer_tiles (tilesets : List Tileset) (raws : List RawLevel)
    (lvls : List Level)
    (hf : List.Forall₂ (fun raw lvl => resolveLevel tilesets raw = Except.ok lvl) raws lvls) :
    lvls.map (fun lvl => lvl.Layers.map fun ly => (ly.Tiles, ly.AutoTiles))
      = raws.map (fun rl => rl.layerInstances.map fun l => (l.gridTiles, l.autoLayerTiles)) := by
  induction hf with
  | nil => rfl
  | cons h1 h2 ih =>
    simp only [List.map_cons, List.cons.injEq]
    refine ⟨?_, ih⟩
    rw [(resolveLevel_ok _ _ _ h1).1, List.map_map]
    rfl

/-! ## Claim C2 -/

/-- Claim C2, counterexample: the claim predicts that after `Read` the
layer list is the reverse of the document's `layerInstances` (first
element = document's last layer).  On a document with layers "A" then
"B", `Read` yields "A" first: the order is preserved, not reversed
(`json.Unmarshal` keeps array order and `Read` never reorders; the
bundled renderers reverse at draw time instead). -/
theorem layer_order_counterexample :
    layerIdentsOfRead (Read (Except.ok c2doc)) = some [["A", "B"]]
    ∧ (c2doc.levels.map fun rl => (rl.layerInstances.map fun l => l.identifier).reverse)
        = [["B", "A"]]
    ∧ (some [["A", "B"]] : Option (List (List String))) ≠ some [["B", "A"]] := by
  refine ⟨rfl, rfl, by decide⟩

/-- Claim C2, amended: after `Read`, every Level's `Layers` list preserves
the top-to-bottom `layerInstances` order of the source document (the
first element of `Level.Layers` is the source document's FIRST layer);
each resolved layer is the in-order resolution of the corresponding raw
layer.  The reversal the claim describes happens in the renderers at draw
time, not in `Read`. -/
theorem layer_order_preserved (raw : RawDocument) (p : Project)
    (h : Read (Except.ok raw) = Except.ok (some p, none)) :
    p.Levels.map (fun lvl => lvl.Layers.map fun ly => ly.Identifier)
      = raw.levels.map (fun rl => rl.layerInstances.map fun l => l.identifier)
    ∧ p.Levels.map (fun lvl => lvl.Layers)
      = raw.levels.map (fun rl =>
          rl.layerInstances.map (resolveLayer (raw.tilesetDefs.map decodeTileset))) := by
  obtain ⟨hl, _⟩ := resolveProject_ok raw p (read_ok_resolve raw p h)
  have hf := resolveLevels_ok _ _ _ hl
  exact ⟨forall₂_level_layer_idents _ _ _ hf, forall₂_level_layers _ _ _ hf⟩

/-- Claim C2, witness: the amended order-preservation applied to the
concrete two-layer document. -/
theorem layer_order_preserved_witness :
    c2project.Levels.map (fun lvl => lvl.Layers.map fun ly => ly.Identifier)
      = c2doc.levels.map (fun rl => rl.layerInstances.map fun l => l.identifier)
    ∧ c2project.Levels.map (fun lvl => lvl.Layers)
      = c2doc.levels.map (fun rl =>
          rl.layerInstances.map (resolveLayer (c2doc.tilesetDefs.map decodeTileset))) :=
  layer_order_preserved c2doc c2project rfl

/-! ## Claim C1 -/

/-- Claim C1, counterexample: the claim predicts that `Read` computes each
tile's `Src` from its tile ID and the tileset grid geometry (for the
256-wide, 32-pixel-grid tileset, ID 10 would give `(64, 32)`).  On a
document whose tile has ID 10 but a `src` field of `[0, 0]`, `Read`
yields `Src = [0, 0]`: the pipeline copies the document's `src` field
verbatim and performs no geometry computation. -/
theorem read_does_not_compute_tile_src :
    firstTileSrcOfRead (Read (Except.ok c1doc)) = some [0, 0]
    ∧ specTileSrcRect 32 0 0 256 10 = (64, 32, 32, 32)
    ∧ (some [(0 : Int), 0] : Option (List Int)) ≠ some [64, 32] := by
  refine ⟨rfl, by decide, by decide⟩

/-- Claim C1, amended: the load-and-resolve pipeline does not compute
source rectangles: every resolved Tile and AutoTile keeps exactly the
`src` pixel pair decoded from the document (`Src` passes through `Read`
unchanged), and the tile's width and height are taken from the layer's
grid size at render time.  The spec's formula itself — modelled as
`specTileSrcRect` — does yield `(64, 32, 32, 32)` for tile ID 10 on a
tileset with pxWidth 256, gridSize 32, spacing 0, padding 0, which
matches the resolved `Src` only when the document's `src` field is
consistent with that formula. -/
theorem tile_src_passthrough (raw : RawDocument) (p : Project)
    (h : Read (Except.ok raw) = Except.ok (some p, none)) :
    p.Levels.map (fun lvl => lvl.Layers.map fun ly => (ly.Tiles, ly.AutoTiles))
      = raw.levels.map (fun rl => rl.layerInstances.map fun l => (l.gridTiles, l.autoLayerTiles))
    ∧ specTileSrcRect 32 0 0 256 10 = (64, 32, 32, 32) := by
  obtain ⟨hl, _⟩ := resolveProject_ok raw p (read_ok_resolve raw p h)
  exact ⟨forall₂_level_layer_tiles _ _ _ (resolveLevels_ok _ _ _ hl), by decide⟩

/-- Claim C1, witness: the tile passthrough applied to the concrete
one-tile document. -/
theorem tile_src_passthrough_witness :
    c1project.Levels.map (fun lvl => lvl.Layers.map fun ly => (ly.Tiles, ly.AutoTiles))
      = c1doc.levels.map (fun rl => rl.layerInstances.map fun l => (l.gridTiles, l.autoLayerTiles))
    ∧ specTileSrcRect 32 0 0 256 10 = (64, 32, 32, 32) :=
  tile_src_passthrough c1doc c1project rfl

/-! ## Claim C6 -/

/-- Claim C6: on a well-formed document whose level declares a non-empty
background image path while the `__bgPos` block is absent, `Read` panics
(`scale[0]` indexes an empty array) instead of returning a typed error —
the model returns `Except.error` (a panic), not a `(nil, error)` pair;
and whenever the block is present with its two scale values and
four-value crop rectangle, the level's `BGImage` is attached with the
path, both scale values and the 4-element crop rectangle (the third
conjunct ties the background step to the level `Read` builds). -/
theorem bgimage_crash_and_attach :
    Read (Except.ok c6doc) = Except.error PanicKind.indexOutOfRange
    ∧ (∀ (raw : RawLevel) (path : String) (bp : RawBgPos)
         (s0 s1 : Rat) (srest : List Rat) (c0 c1 c2 c3 : Rat) (crest : List Rat),
        raw.bgRelPath = some path → path ≠ "" → raw.bgPos = some bp →
        bp.scale = s0 :: s1 :: srest → bp.cropRect = c0 :: c1 :: c2 :: c3 :: crest →
        resolveBGImage raw
          = Except.ok (some { Path := path, ScaleX := s0, ScaleY := s1,
                              CropRect := [c0, c1, c2, c3] }))
    ∧ (∀ (tilesets : List Tileset) (raw : RawLevel) (lvl : Level),
        resolveLevel tilesets raw = Except.ok lvl →
        resolveBGImage raw = Except.ok lvl.BGImage) := by
  refine ⟨rfl, ?_, ?_⟩
  · intro raw path bp s0 s1 srest c0 c1 c2 c3 crest h1 h2 h3 h4 h5
    simp only [resolveBGImage, h1, h3, h4, h5, if_neg h2, goIndex,
               List.getElem?_cons_zero, List.getElem?_cons_succ, except_ok_bind]
  · intro tilesets raw lvl h
    exact (resolveLevel_ok tilesets raw lvl h).2.2

/-- Claim C6, witness: the attach clause applied to a concrete level with
scale `[1, 2]` and crop rectangle `[0, 0, 3, 4]`. -/
theorem bgimage_crash_and_attach_witness :
    resolveBGImage c6rawLevel
      = Except.ok (some { Path := "bg.png", ScaleX := 1, ScaleY := 2,
                          CropRect := [0, 0, 3, 4] }) :=
  bgimage_crash_and_attach.2.1 c6rawLevel "bg.png"
    { scale := [1, 2], cropRect := [0, 0, 3, 4] } 1 2 [] 0 0 3 4 []
    rfl (by decide) rfl rfl rfl
